import Mathlib

/-!
Shallow embedding of the TMC2240 register-field codec and shadow-register
cache of the TMC-API (src/tmc/ic/TMC2240/TMC2240.h, together with the
RegisterField fixtures of src/tmc/ic/TMC2225/TMC2225_HW_Abstraction.h).

C uint32_t values are modelled as Nat, reduced modulo 2 ^ 32 exactly where
the C computation can overflow (left shift, subtraction). Bitwise AND, OR,
XOR and right shift of values below 2 ^ 32 cannot overflow, so they are the
plain Nat operations.
-/

/-- 2 ^ 32, the modulus of C uint32_t arithmetic. -/
def U32_MOD : Nat := 2 ^ 32

/-- C bitwise complement on a uint32_t value. -/
def not32 (x : Nat) : Nat := x ^^^ (U32_MOD - 1)

/-- Two's-complement reading of a 32-bit pattern, to state what a uint32_t
bit pattern means "as a 32-bit two's-complement value". -/
def int32OfBits (x : Nat) : Int :=
  if x < 2 ^ 31 then (x : Int) else (x : Int) - (U32_MOD : Int)

/-- TMC2240.h lines 61-67: a declarative bit-range descriptor. -/
structure RegisterField where
  mask : Nat
  shift : Nat
  address : Nat
  isSigned : Bool

/-- TMC2240.h lines 70-83: isolate the mask bits, shift down, and if the
field is signed apply the mask-derived sign extension
`(value XOR signMask) - signMask` in uint32_t arithmetic. -/
def tmc2240_fieldExtract (data : Nat) (field : RegisterField) : Nat :=
  let value := (data &&& field.mask) >>> field.shift
  if field.isSigned then
    let baseMask := field.mask >>> field.shift
    let signMask := baseMask &&& (not32 baseMask >>> 1)
    ((value ^^^ signMask) + (U32_MOD - signMask)) % U32_MOD
  else
    value

/-- TMC2240.h lines 92-95: clear the mask bits of `data`, OR in
`(value << shift) & mask` (the shift wraps modulo 2 ^ 32 in C). -/
def tmc2240_fieldUpdate (data : Nat) (field : RegisterField) (value : Nat) : Nat :=
  (data &&& not32 field.mask) ||| (((value <<< field.shift) % U32_MOD) &&& field.mask)

/-- TMC2240.h lines 97-104. The bus transactions tmc2240_readRegister and
tmc2240_writeRegister are collaborators declared outside this translation
unit (their bodies live in the bus transport layer), so the read is an
oracle argument and the result is the argument triple (icID, address, value)
that the body hands to tmc2240_writeRegister. -/
def tmc2240_fieldWrite (readRegister : Nat → Nat → Nat) (icID : Nat)
    (field : RegisterField) (value : Nat) : Nat × Nat × Nat :=
  let regValue := readRegister icID field.address
  let regValue2 := tmc2240_fieldUpdate regValue field value
  (icID, field.address, regValue2)

/-- TMC2240_HW_Abstraction.h: the register address space has 128 slots. -/
def TMC2240_REGISTER_COUNT : Nat := 128

/-- TMC2240.h line 131. -/
def TMC2240_ACCESS_READ : Nat := 0x01

/-- TMC2240.h line 130. -/
def TMC2240_ACCESS_DIRTY : Nat := 0x08

/-- TMC2240.h line 132. -/
def TMC2240_ACCESS_W_PRESET : Nat := 0x42

/-- TMC2240.h line 133: a register is physically readable when the read bit
of its access byte is set. -/
def TMC2240_IS_READABLE (x : Nat) : Bool := x &&& TMC2240_ACCESS_READ != 0

/-- TMC2240.h line 150: the "not available" marker used in the default table
for registers with a hardware preset. It is defined as 0. -/
def N_A : Nat := 0

/-- TMC2240.h lines 152-161: the named default register values. -/
def R00 : Nat := 0x00002108
def R0A : Nat := 0x00000020
def R10 : Nat := 0x00070A03
def R11 : Nat := 0x0000000A
def R2B : Nat := 0x00000001
def R3A : Nat := 0x00010000
def R52 : Nat := 0x0B920F25
def R6C : Nat := 0x14410153
def R70 : Nat := 0xC44C001E

/-- TMC2240.h lines 171-182: the access-permission byte of each of the 128
register addresses (0x00 none, 0x01 read, 0x03 read/write, 0x23 read/write
flag, 0x42 write with hardware preset). -/
def tmc2240_registerAccessList : List Nat :=
  [0x03, 0x23, 0x01, 0x03, 0x03, 0x00, 0x00, 0x00, 0x00, 0x00, 0x03, 0x03, 0x00, 0x00, 0x00, 0x00,
   0x03, 0x03, 0x01, 0x03, 0x03, 0x03, 0x00, 0x00, 0x00, 0x00, 0x00, 0x00, 0x00, 0x00, 0x00, 0x00,
   0x00, 0x00, 0x00, 0x00, 0x00, 0x00, 0x00, 0x00, 0x00, 0x00, 0x00, 0x00, 0x00, 0x03, 0x00, 0x00,
   0x00, 0x00, 0x00, 0x00, 0x00, 0x00, 0x00, 0x00, 0x03, 0x03, 0x03, 0x23, 0x01, 0x00, 0x00, 0x00,
   0x00, 0x00, 0x00, 0x00, 0x00, 0x00, 0x00, 0x00, 0x00, 0x00, 0x00, 0x00, 0x00, 0x00, 0x00, 0x00,
   0x01, 0x01, 0x03, 0x00, 0x00, 0x00, 0x00, 0x00, 0x00, 0x00, 0x00, 0x00, 0x00, 0x00, 0x00, 0x00,
   0x42, 0x42, 0x42, 0x42, 0x42, 0x42, 0x42, 0x42, 0x42, 0x42, 0x01, 0x01, 0x03, 0x03, 0x00, 0x01,
   0x03, 0x01, 0x01, 0x00, 0x03, 0x01, 0x01, 0x00, 0x00, 0x00, 0x00, 0x00, 0x00, 0x00, 0x00, 0x00]

/-- Access-permission lookup, TMC2240.h array indexing. -/
def tmc2240_registerAccess (address : Nat) : Nat :=
  tmc2240_registerAccessList.getD address 0

/-- TMC2240.h lines 183-194: the default register value of each of the 128
addresses (0 where no default is named, N_A at the hardware-preset slots
0x60-0x69, and the R.. constants elsewhere). -/
def tmc2240_sampleRegisterPresetList : List Nat :=
  [R00, 0, 0, 0, 0, 0, 0, 0, 0, 0, R0A, 0, 0, 0, 0, 0,
   R10, R11, 0, 0, 0, 0, 0, 0, 0, 0, 0, R2B, 0, 0, 0, 0,
   0, 0, 0, 0, 0, 0, 0, 0, 0, 0, 0, 0, 0, 0, 0, 0,
   0, 0, 0, 0, 0, 0, 0, 0, 0, 0, R3A, 0, 0, 0, 0, 0,
   0, 0, 0, 0, 0, 0, 0, 0, 0, 0, 0, 0, 0, 0, 0, 0,
   0, 0, R52, 0, 0, 0, 0, 0, 0, 0, 0, 0, 0, 0, 0, 0,
   N_A, N_A, N_A, N_A, N_A, N_A, N_A, N_A, N_A, N_A, 0, 0, R6C, 0, 0, 0,
   R70, 0, 0, 0, 0, 0, 0, 0, 0, 0, 0, 0, 0, 0, 0, 0]

/-- Default-value lookup, TMC2240.h array indexing. -/
def tmc2240_sampleRegisterPreset (address : Nat) : Nat :=
  tmc2240_sampleRegisterPresetList.getD address 0

/-- TMC2240.h lines 115-123: the cache opcodes. -/
inductive TMC2240CacheOp where
  | TMC2240_CACHE_READ : TMC2240CacheOp
  | TMC2240_CACHE_WRITE : TMC2240CacheOp
  | TMC2240_CACHE_FILL_DEFAULT : TMC2240CacheOp

/-- The shadow cache state (TMC2240.h lines 215-216): per (icID, address) a
shadow value and a dirty flag. -/
structure CacheState where
  shadowRegister : Nat → Nat → Nat
  dirtyBits : Nat → Nat → Bool

/-- A fully clean, zeroed cache, as after allocation. -/
def emptyCacheState : CacheState :=
  CacheState.mk (fun _ _ => 0) (fun _ _ => false)

/-- Modelled from the spec: the body of tmc2240_cache is not among the
repository source files (TMC2240.h line 217 only declares it), so the three
operations follow spec section 4.3 word for word, on top of the access table
and the TMC2240_IS_READABLE macro that are in the header. READ declines
(first component false, value and state untouched) when the access policy
marks the address physically readable, otherwise answers the shadow value;
WRITE stores the value and sets the dirty flag unconditionally; FILL_DEFAULT
stores the value and leaves every dirty flag as it was. -/
def tmc2240_cache (icID : Nat) (operation : TMC2240CacheOp) (address : Nat)
    (value : Nat) (s : CacheState) : Bool × Nat × CacheState :=
  match operation with
  | TMC2240CacheOp.TMC2240_CACHE_READ =>
      if TMC2240_IS_READABLE (tmc2240_registerAccess address) then
        (false, value, s)
      else
        (true, s.shadowRegister icID address, s)
  | TMC2240CacheOp.TMC2240_CACHE_WRITE =>
      (true, value,
        CacheState.mk
          (fun i a => if i = icID ∧ a = address then value else s.shadowRegister i a)
          (fun i a => if i = icID ∧ a = address then true else s.dirtyBits i a))
  | TMC2240CacheOp.TMC2240_CACHE_FILL_DEFAULT =>
      (true, value,
        CacheState.mk
          (fun i a => if i = icID ∧ a = address then value else s.shadowRegister i a)
          s.dirtyBits)

/-- Modelled from the spec: the restore pass (spec section 4.3, a contract of
a higher layer, not in the repository source files) visits addresses 0..127
in ascending order and reissues exactly those with dirty set and permission
different from None; the result lists the (address, shadowValue) pairs it
writes. -/
def tmc2240_restoreList (icID : Nat) (s : CacheState) : List (Nat × Nat) :=
  (List.range TMC2240_REGISTER_COUNT).filterMap (fun a =>
    if s.dirtyBits icID a = true ∧ tmc2240_registerAccess a ≠ 0 then
      some (a, s.shadowRegister icID a)
    else none)

/-- TMC2225_HW_Abstraction.h line 42. -/
def TMC2225_MSCURACT : Nat := 0x6B

/-- TMC2225_HW_Abstraction.h lines 175-177: the signed CUR_B field, mask
0x01FF0000, shift 16. -/
def TMC2225_CUR_B_FIELD : RegisterField :=
  RegisterField.mk 0x01FF0000 16 TMC2225_MSCURACT true

/-- The same bit range read as an unsigned field, for the signed/unsigned
comparison of the sign-handling property. -/
def TMC2225_CUR_B_FIELD_UNSIGNED : RegisterField :=
  RegisterField.mk 0x01FF0000 16 TMC2225_MSCURACT false

/-- TMC2225_HW_Abstraction.h lines 148-153: the IHOLD (mask 0x1F, shift 0)
and IRUN (mask 0x1F00, shift 8) fields of IHOLD_IRUN, two disjoint fields of
one register. -/
def TMC2225_IHOLD_FIELD : RegisterField := RegisterField.mk 0x1F 0 0x10 false

def TMC2225_IRUN_FIELD : RegisterField := RegisterField.mk 0x1F00 8 0x10 false

/-! ## Helper lemmas shared by several claims -/

/-- A mask below 2 ^ 32 has no bit set at position 32 or above. -/
lemma mask_testBit_high {m : Nat} (hlt : m < U32_MOD) {j : Nat} (hj : 32 ≤ j) :
    m.testBit j = false :=
  Nat.testBit_lt_two_pow (lt_of_lt_of_le hlt (Nat.pow_le_pow_right (by norm_num) hj))

/-- An address is reissued by the restore pass exactly when it is in range,
its dirty flag is set and its permission is not None. -/
lemma mem_restoreList_fst {icID address : Nat} {s : CacheState} :
    address ∈ (tmc2240_restoreList icID s).map Prod.fst ↔
      address < 128 ∧ s.dirtyBits icID address = true ∧ tmc2240_registerAccess address ≠ 0 := by
  simp only [tmc2240_restoreList, TMC2240_REGISTER_COUNT, List.mem_map, List.mem_filterMap,
    List.mem_range, Option.ite_none_right_eq_some]
  constructor
  · rintro ⟨p, ⟨a, ha, ⟨hd, hn⟩, hp⟩, hfst⟩
    rcases hp
    rcases hfst
    exact ⟨ha, hd, hn⟩
  · rintro ⟨ha, hd, hn⟩
    exact ⟨(address, s.shadowRegister icID address), ⟨address, ha, ⟨hd, hn⟩, rfl⟩, rfl⟩

/-! ## The claims -/

/-- C1: for every unsigned field F whose mask bits are contiguous with the
shift at the mask's lowest set bit (mask = (2 ^ w - 1) <<< shift) and mask a
32-bit pattern, and all register values r and values v, extracting right
after updating returns v truncated to the field width:
tmc2240_fieldExtract (tmc2240_fieldUpdate r F v) F = v &&& (F.mask >>> F.shift). -/
theorem fieldExtract_fieldUpdate_unsigned (r v : Nat) (F : RegisterField)
    (hsign : F.isSigned = false) (hlt : F.mask < U32_MOD)
    (hcontig : ∃ w, F.mask = (2 ^ w - 1) <<< F.shift) :
    tmc2240_fieldExtract (tmc2240_fieldUpdate r F v) F = v &&& (F.mask >>> F.shift) := by
  apply Nat.eq_of_testBit_eq
  intro i
  simp only [tmc2240_fieldExtract, tmc2240_fieldUpdate, not32, U32_MOD, hsign,
    Bool.false_eq_true, if_false, Nat.testBit_shiftRight, Nat.testBit_and, Nat.testBit_or,
    Nat.testBit_xor, Nat.testBit_mod_two_pow, Nat.testBit_shiftLeft,
    Nat.testBit_two_pow_sub_one]
  rcases Bool.eq_false_or_eq_true (F.mask.testBit (F.shift + i)) with hm | hm
  · have h32 : F.shift + i < 32 := by
      by_contra hge
      rw [mask_testBit_high hlt (Nat.le_of_not_lt hge)] at hm
      exact Bool.false_ne_true hm
    simp [hm, h32]
  · simp [hm]

/-- C1 witness: the unsigned IRUN field (mask 0x1F00, shift 8) on register
value 0x12345678 with written value 31. -/
theorem fieldExtract_fieldUpdate_unsigned_witness :
    tmc2240_fieldExtract (tmc2240_fieldUpdate 0x12345678 TMC2225_IRUN_FIELD 31)
        TMC2225_IRUN_FIELD =
      31 &&& (TMC2225_IRUN_FIELD.mask >>> TMC2225_IRUN_FIELD.shift) :=
  fieldExtract_fieldUpdate_unsigned 0x12345678 31 TMC2225_IRUN_FIELD rfl (by decide)
    ⟨5, by decide⟩

/-- C2: FILL_DEFAULT stores the value into the shadow register and leaves
every dirty flag as it was (in particular a false flag stays false); after
it, READ on a register the access policy does not mark readable answers the
filled value, and an address whose dirty flag was false is not reissued by a
restore. -/
theorem cache_fillDefault_spec (s : CacheState) (icID address v rv : Nat) :
    ((tmc2240_cache icID TMC2240CacheOp.TMC2240_CACHE_FILL_DEFAULT address v s).2.2).shadowRegister icID address = v ∧
    ((tmc2240_cache icID TMC2240CacheOp.TMC2240_CACHE_FILL_DEFAULT address v s).2.2).dirtyBits = s.dirtyBits ∧
    (TMC2240_IS_READABLE (tmc2240_registerAccess address) = false →
      tmc2240_cache icID TMC2240CacheOp.TMC2240_CACHE_READ address rv
          ((tmc2240_cache icID TMC2240CacheOp.TMC2240_CACHE_FILL_DEFAULT address v s).2.2) =
        (true, v, (tmc2240_cache icID TMC2240CacheOp.TMC2240_CACHE_FILL_DEFAULT address v s).2.2)) ∧
    (s.dirtyBits icID address = false →
      address ∉ (tmc2240_restoreList icID
          ((tmc2240_cache icID TMC2240CacheOp.TMC2240_CACHE_FILL_DEFAULT address v s).2.2)).map Prod.fst) := by
  refine ⟨by simp [tmc2240_cache], rfl, ?_, ?_⟩
  · intro h
    simp [tmc2240_cache, h]
  · intro hclean hmem
    rw [mem_restoreList_fst] at hmem
    have hd : s.dirtyBits icID address = true := hmem.2.1
    rw [hclean] at hd
    exact Bool.false_ne_true hd

/-- C2 witness: FILL_DEFAULT of 5 at the write-only address 0x60 on a clean
cache; the READ answers 5 and the restore pass does not visit 0x60. -/
theorem cache_fillDefault_spec_witness :
    tmc2240_cache 0 TMC2240CacheOp.TMC2240_CACHE_READ 96 7
        ((tmc2240_cache 0 TMC2240CacheOp.TMC2240_CACHE_FILL_DEFAULT 96 5 emptyCacheState).2.2) =
      (true, 5, (tmc2240_cache 0 TMC2240CacheOp.TMC2240_CACHE_FILL_DEFAULT 96 5 emptyCacheState).2.2) ∧
    96 ∉ (tmc2240_restoreList 0
        ((tmc2240_cache 0 TMC2240CacheOp.TMC2240_CACHE_FILL_DEFAULT 96 5 emptyCacheState).2.2)).map Prod.fst :=
  ⟨(cache_fillDefault_spec emptyCacheState 0 96 5 7).2.2.1 (by decide),
   (cache_fillDefault_spec emptyCacheState 0 96 5 7).2.2.2 rfl⟩

/-- C3: WRITE stores the value into the shadow register and sets the dirty
flag, with no condition on the access classification; after it, READ on a
register the access policy does not mark readable answers exactly the
written value. -/
theorem cache_write_spec (s : CacheState) (icID address v rv : Nat) :
    ((tmc2240_cache icID TMC2240CacheOp.TMC2240_CACHE_WRITE address v s).2.2).shadowRegister icID address = v ∧
    ((tmc2240_cache icID TMC2240CacheOp.TMC2240_CACHE_WRITE address v s).2.2).dirtyBits icID address = true ∧
    (TMC2240_IS_READABLE (tmc2240_registerAccess address) = false →
      tmc2240_cache icID TMC2240CacheOp.TMC2240_CACHE_READ address rv
          ((tmc2240_cache icID TMC2240CacheOp.TMC2240_CACHE_WRITE address v s).2.2) =
        (true, v, (tmc2240_cache icID TMC2240CacheOp.TMC2240_CACHE_WRITE address v s).2.2)) := by
  refine ⟨by simp [tmc2240_cache], by simp [tmc2240_cache], ?_⟩
  intro h
  simp [tmc2240_cache, h]

/-- C3 witness: WRITE of 9 at the write-only address 0x60 sets the dirty
flag and the READ after it answers 9. -/
theorem cache_write_spec_witness :
    ((tmc2240_cache 0 TMC2240CacheOp.TMC2240_CACHE_WRITE 96 9 emptyCacheState).2.2).dirtyBits 0 96 = true ∧
    tmc2240_cache 0 TMC2240CacheOp.TMC2240_CACHE_READ 96 7
        ((tmc2240_cache 0 TMC2240CacheOp.TMC2240_CACHE_WRITE 96 9 emptyCacheState).2.2) =
      (true, 9, (tmc2240_cache 0 TMC2240CacheOp.TMC2240_CACHE_WRITE 96 9 emptyCacheState).2.2) :=
  ⟨(cache_write_spec emptyCacheState 0 96 9 7).2.1,
   (cache_write_spec emptyCacheState 0 96 9 7).2.2 (by decide)⟩

/-- C4 counterexample: address 0x01 (GSTAT) is classified 0x23, a flag
register, which is none of Read (0x01), ReadWrite (0x03) or the split
classification (0x13); still the cache READ declines it (first component
false) instead of returning the shadow value as the logical value. -/
theorem cache_read_flag_counterexample :
    tmc2240_registerAccess 0x01 = 0x23 ∧
    (tmc2240_registerAccess 0x01 ≠ 0x01 ∧ tmc2240_registerAccess 0x01 ≠ 0x03 ∧
      tmc2240_registerAccess 0x01 ≠ 0x13) ∧
    (tmc2240_cache 0 TMC2240CacheOp.TMC2240_CACHE_READ 0x01 7 emptyCacheState).1 = false ∧
    (tmc2240_cache 0 TMC2240CacheOp.TMC2240_CACHE_READ 0x01 7 emptyCacheState).2.1 ≠
      emptyCacheState.shadowRegister 0 0x01 := by decide

/-- C4 amended: the cache READ declines exactly when the access byte has the
read bit set (TMC2240_IS_READABLE, which covers 0x01, 0x03, 0x13 and also
the flag classification 0x23); for every other classification it returns the
shadow value as the logical value and leaves the state untouched; in
particular the ReadWrite byte 0x03 counts as readable, so such registers are
declined. -/
theorem cache_read_declines_iff_readable (s : CacheState) (icID address rv : Nat) :
    ((tmc2240_cache icID TMC2240CacheOp.TMC2240_CACHE_READ address rv s).1 = false ↔
      TMC2240_IS_READABLE (tmc2240_registerAccess address) = true) ∧
    (TMC2240_IS_READABLE (tmc2240_registerAccess address) = false →
      tmc2240_cache icID TMC2240CacheOp.TMC2240_CACHE_READ address rv s =
        (true, s.shadowRegister icID address, s)) ∧
    TMC2240_IS_READABLE 0x03 = true := by
  refine ⟨?_, ?_, by decide⟩
  · by_cases h : TMC2240_IS_READABLE (tmc2240_registerAccess address) <;>
      simp [tmc2240_cache, h]
  · intro h
    simp [tmc2240_cache, h]

/-- C4 witness: address 0x00 (GCONF) is classified ReadWrite (0x03) and the
cache READ declines it. -/
theorem cache_read_declines_readwrite_witness :
    (tmc2240_cache 0 TMC2240CacheOp.TMC2240_CACHE_READ 0 7 emptyCacheState).1 = false :=
  (cache_read_declines_iff_readable emptyCacheState 0 0 7).1.mpr (by decide)

/-- C5: tmc2240_fieldWrite is read-modify-write: whatever value the register
read oracle reports for (icID, field.address), the write it issues is to the
same icID and field.address, with exactly tmc2240_fieldUpdate applied to the
read value. -/
theorem fieldWrite_read_modify_write (readRegister : Nat → Nat → Nat) (icID : Nat)
    (F : RegisterField) (v : Nat) :
    tmc2240_fieldWrite readRegister icID F v =
      (icID, F.address, tmc2240_fieldUpdate (readRegister icID F.address) F v) := rfl

/-- C6: on the CUR_B field (mask 0x01FF0000, shift 16) of any register value
whose bits under the mask are all set (raw field bits 0x1FF), the signed
extraction yields the uint32_t pattern 0xFFFFFFFF, which reads as -1 in
32-bit two's complement, while the unsigned reading of the same bits is 511. -/
theorem cur_b_sign_handling (r : Nat) (h : r &&& 0x01FF0000 = 0x01FF0000) :
    tmc2240_fieldExtract r TMC2225_CUR_B_FIELD = 0xFFFFFFFF ∧
    int32OfBits (tmc2240_fieldExtract r TMC2225_CUR_B_FIELD) = -1 ∧
    tmc2240_fieldExtract r TMC2225_CUR_B_FIELD_UNSIGNED = 511 := by
  have e1 : tmc2240_fieldExtract r TMC2225_CUR_B_FIELD = 0xFFFFFFFF := by
    simp only [tmc2240_fieldExtract, TMC2225_CUR_B_FIELD, h]
    decide
  have e2 : tmc2240_fieldExtract r TMC2225_CUR_B_FIELD_UNSIGNED = 511 := by
    simp only [tmc2240_fieldExtract, TMC2225_CUR_B_FIELD_UNSIGNED, h]
    decide
  exact ⟨e1, by rw [e1]; decide, e2⟩

/-- C6 witness: the register value 0x01FF0000 itself. -/
theorem cur_b_sign_handling_witness :
    tmc2240_fieldExtract 0x01FF0000 TMC2225_CUR_B_FIELD = 0xFFFFFFFF ∧
    int32OfBits (tmc2240_fieldExtract 0x01FF0000 TMC2225_CUR_B_FIELD) = -1 ∧
    tmc2240_fieldExtract 0x01FF0000 TMC2225_CUR_B_FIELD_UNSIGNED = 511 :=
  cur_b_sign_handling 0x01FF0000 (by decide)

/-- C7: tmc2240_fieldUpdate leaves every bit outside the mask equal to the
corresponding bit of the old register value, and depends on the new value
only through its bits under the field width, so wider bits are silently
truncated by the mask. -/
theorem fieldUpdate_frame_truncation (r v : Nat) (F : RegisterField)
    (hlt : F.mask < U32_MOD) :
    tmc2240_fieldUpdate r F v &&& not32 F.mask = r &&& not32 F.mask ∧
    tmc2240_fieldUpdate r F v = tmc2240_fieldUpdate r F (v &&& (F.mask >>> F.shift)) := by
  constructor
  · apply Nat.eq_of_testBit_eq
    intro i
    simp only [tmc2240_fieldUpdate, not32, U32_MOD, Nat.testBit_and, Nat.testBit_or,
      Nat.testBit_xor, Nat.testBit_mod_two_pow, Nat.testBit_shiftLeft,
      Nat.testBit_two_pow_sub_one]
    rcases Bool.eq_false_or_eq_true (F.mask.testBit i) with hm | hm
    · have h32 : i < 32 := by
        by_contra hge
        rw [mask_testBit_high hlt (Nat.le_of_not_lt hge)] at hm
        exact Bool.false_ne_true hm
      simp [hm, h32]
    · simp [hm]
  · apply Nat.eq_of_testBit_eq
    intro i
    simp only [tmc2240_fieldUpdate, not32, U32_MOD, Nat.testBit_and, Nat.testBit_or,
      Nat.testBit_xor, Nat.testBit_mod_two_pow, Nat.testBit_shiftLeft,
      Nat.testBit_shiftRight, Nat.testBit_two_pow_sub_one]
    by_cases hs : F.shift ≤ i
    · simp [hs, Nat.add_sub_cancel' hs]
      rcases Bool.eq_false_or_eq_true (F.mask.testBit i) with hm | hm <;> simp [hm]
    · simp [hs]

/-- C7 witness: the IRUN field (mask 0x1F00) on register value 0x12345678
with the over-wide value 0xFFFF. -/
theorem fieldUpdate_frame_truncation_witness :
    tmc2240_fieldUpdate 0x12345678 TMC2225_IRUN_FIELD 0xFFFF &&& not32 TMC2225_IRUN_FIELD.mask =
      0x12345678 &&& not32 TMC2225_IRUN_FIELD.mask ∧
    tmc2240_fieldUpdate 0x12345678 TMC2225_IRUN_FIELD 0xFFFF =
      tmc2240_fieldUpdate 0x12345678 TMC2225_IRUN_FIELD
        (0xFFFF &&& (TMC2225_IRUN_FIELD.mask >>> TMC2225_IRUN_FIELD.shift)) :=
  fieldUpdate_frame_truncation 0x12345678 0xFFFF TMC2225_IRUN_FIELD (by decide)

/-- C8 counterexample: the hardware-preset slot 0x60 (access byte 0x42,
entry N_A) and the no-default slot 0x02 (IFCNT, access byte 0x01, entry 0)
hold the very same table value, N_A being defined as 0, so the two sentinel
cases cannot be told apart by inspecting a default-table entry. -/
theorem na_sentinel_counterexample :
    N_A = 0 ∧
    tmc2240_sampleRegisterPreset 0x60 = N_A ∧ tmc2240_registerAccess 0x60 = 0x42 ∧
    tmc2240_sampleRegisterPreset 0x02 = N_A ∧ tmc2240_registerAccess 0x02 = 0x01 := by decide

/-- C8 amended: the no-default sentinel and the hardware-preset N_A marker
are the same value 0; every slot the access table classifies 0x42 holds N_A,
and slots not classified 0x42 hold the same 0, so the two cases are told
apart only through the access-permission table, not by inspecting the
default-table entry. -/
theorem na_sentinel_shared_zero :
    N_A = 0 ∧
    (∀ a, a < 128 → tmc2240_registerAccess a = 0x42 → tmc2240_sampleRegisterPreset a = N_A) ∧
    (∃ a, a < 128 ∧ tmc2240_registerAccess a ≠ 0x42 ∧ tmc2240_sampleRegisterPreset a = N_A) :=
  ⟨rfl, by decide, ⟨2, by decide⟩⟩

/-- C9: at address 0x1B the default table holds R2B = 0x00000001 (the
constant is named, per the table's Rxx convention, for register 0x2B,
VSTOP), an entry that is neither the 0 sentinel nor a hardware-preset slot;
yet the access table classifies 0x1B as None (and 0x2B as None too), so
cache initialization would seed an address with no universal meaning. -/
theorem default_seeded_at_unmapped_address :
    tmc2240_sampleRegisterPreset 0x1B = R2B ∧ R2B = 1 ∧
    tmc2240_sampleRegisterPreset 0x1B ≠ 0 ∧ tmc2240_registerAccess 0x1B ≠ 0x42 ∧
    tmc2240_registerAccess 0x1B = 0 ∧
    tmc2240_registerAccess 0x2B = 0 := by decide

/-- C10: updates of two fields with disjoint masks commute, so independently
writable fields of one register can be set in any order. -/
theorem fieldUpdate_disjoint_comm (r v1 v2 : Nat) (F1 F2 : RegisterField)
    (h1 : F1.mask < U32_MOD) (h2 : F2.mask < U32_MOD)
    (hdisj : F1.mask &&& F2.mask = 0) :
    tmc2240_fieldUpdate (tmc2240_fieldUpdate r F1 v1) F2 v2 =
      tmc2240_fieldUpdate (tmc2240_fieldUpdate r F2 v2) F1 v1 := by
  have hbit : ∀ i, F1.mask.testBit i = true → F2.mask.testBit i = false := by
    intro i h
    have hz := congrArg (fun x => x.testBit i) hdisj
    simpa [h] using hz
  apply Nat.eq_of_testBit_eq
  intro i
  simp only [tmc2240_fieldUpdate, not32, U32_MOD, Nat.testBit_and, Nat.testBit_or,
    Nat.testBit_xor, Nat.testBit_mod_two_pow, Nat.testBit_shiftLeft,
    Nat.testBit_two_pow_sub_one]
  rcases Bool.eq_false_or_eq_true (F1.mask.testBit i) with hm1 | hm1
  · have h32 : i < 32 := by
      by_contra hge
      rw [mask_testBit_high h1 (Nat.le_of_not_lt hge)] at hm1
      exact Bool.false_ne_true hm1
    have hm2 : F2.mask.testBit i = false := hbit i hm1
    simp [hm1, hm2, h32]
  · rcases Bool.eq_false_or_eq_true (F2.mask.testBit i) with hm2 | hm2
    · have h32 : i < 32 := by
        by_contra hge
        rw [mask_testBit_high h2 (Nat.le_of_not_lt hge)] at hm2
        exact Bool.false_ne_true hm2
      simp [hm1, hm2, h32]
    · simp [hm1, hm2]

/-- C10 witness: the disjoint IHOLD (mask 0x1F) and IRUN (mask 0x1F00)
fields, set to 10 and 31 in either order on a zero register. -/
theorem fieldUpdate_disjoint_comm_witness :
    tmc2240_fieldUpdate (tmc2240_fieldUpdate 0 TMC2225_IHOLD_FIELD 10) TMC2225_IRUN_FIELD 31 =
      tmc2240_fieldUpdate (tmc2240_fieldUpdate 0 TMC2225_IRUN_FIELD 31) TMC2225_IHOLD_FIELD 10 :=
  fieldUpdate_disjoint_comm 0 10 31 TMC2225_IHOLD_FIELD TMC2225_IRUN_FIELD (by decide)
    (by decide) (by decide)
